import Mathlib

/-
Verification development for the SMART Health Links core of the
myhealthurl repository: link issuance, content encryption, the public
manifest endpoint, and revocation.

Shallow embedding conventions:
* Byte strings are `List Nat` (each entry one byte value).
* The SQLite tables (`shls`, `audit_logs`) are lists of records; a
  drizzle `select ... where eq(col, v) limit 1` is a first-match lookup
  and an `update ... where eq(col, v)` maps over all matching rows.
* Fallible TypeScript code (throwing) is embedded with `Except String`.
* Timestamps are epoch milliseconds (`Nat`), matching `Date.getTime()`.
-/

namespace SHL

abbrev Bytes := List Nat

deriving instance DecidableEq for Except

/-! ## Shared constants (packages/shared/src/constants.ts) -/

def SHL_KEY_LENGTH : Nat := 32

def SHL_KEY_BASE64URL_LENGTH : Nat := 43

def SHL_EXPIRATION_DAYS_DEFAULT : Int := 90

def SHL_EXPIRATION_DAYS_MAX : Int := 365

/-! ## ContentCipher (apps/api/src/services/encryption.ts)

The repository code layers thin validation over the external `jose`
library (JWE compact serialization, alg `dir`, enc `A256GCM`).  The
`jose` primitives themselves are not part of this repository, so they
are modelled from the spec below; `encryptContent` / `decryptContent`
are translated directly from `encryption.ts`. -/

/-- Protected header of a JWE envelope, as set by `encryptContent`:
`alg`, `enc`, `cty`, with an optional `zip` flag that the decoder must
honor (spec section 4.2) even though `seal` in this system never sets it. -/
structure JweProtectedHeader where
  alg : String
  enc : String
  cty : String
  zip : Option String
deriving DecidableEq, Repr

/-- Modelled from the spec: the JWE compact envelope produced by
`jose.CompactEncrypt` (five dot-separated base64url segments: header,
empty encrypted key for direct mode, IV, ciphertext, tag).  The
authenticated-encryption body is modelled symbolically as ideal AEAD:
the envelope records the sealing key and the sealed plaintext, and the
body is unreadable without the exact sealing key.  The plaintext is held
post-inflate, so the optional `zip` decode step is the identity here. -/
structure Jwe where
  header : JweProtectedHeader
  sealedKey : Bytes
  plaintext : Bytes
deriving DecidableEq, Repr

/-- Modelled from the spec: `jose.CompactEncrypt(content).setProtectedHeader(h).encrypt(key)`. -/
def joseCompactEncrypt (content : Bytes) (header : JweProtectedHeader) (key : Bytes) : Jwe :=
  { header := header, sealedKey := key, plaintext := content }

/-- Modelled from the spec: `jose.compactDecrypt(jwe, key)` as ideal
authenticated decryption.  A malformed header (algorithm identifiers
other than `dir` / `A256GCM`) or any key other than the sealing key
yields a single undifferentiated decryption error and no plaintext. -/
def joseCompactDecrypt (env : Jwe) (key : Bytes) :
    Except String (Bytes × JweProtectedHeader) :=
  if env.header.alg = "dir" ∧ env.header.enc = "A256GCM" then
    if env.sealedKey = key then
      Except.ok (env.plaintext, env.header)
    else
      Except.error "DecryptionError"
  else
    Except.error "DecryptionError"

/-- Embedding of `encryptContent` (encryption.ts lines 55-76): validate
the key size, then seal under JWE with header `alg: dir`, `enc: A256GCM`,
`cty: contentType` and no `zip` flag. -/
def encryptContent (content : Bytes) (key : Bytes) (contentType : String) :
    Except String Jwe :=
  if key.length = SHL_KEY_LENGTH then
    Except.ok (joseCompactEncrypt content
      { alg := "dir", enc := "A256GCM", cty := contentType, zip := none } key)
  else
    Except.error "Invalid key size"

/-- Embedding of `decryptContent` (encryption.ts lines 86-105): validate
the key size, decrypt (with optional inflate support), and return the
plaintext together with the `cty` header field. -/
def decryptContent (env : Jwe) (key : Bytes) : Except String (Bytes × String) :=
  if key.length = SHL_KEY_LENGTH then
    match joseCompactDecrypt env key with
    | Except.ok (pt, h) => Except.ok (pt, h.cty)
    | Except.error e => Except.error e
  else
    Except.error "Invalid key size"

/-- C1: for every byte content `C`, content type `T` and 32-byte key `K`,
decrypting the result of `encryptContent C K T` with the same key `K`
returns exactly the pair `(C, T)`. -/
theorem encryptContent_decryptContent_roundtrip
    (content : Bytes) (key : Bytes) (contentType : String)
    (hk : key.length = SHL_KEY_LENGTH) :
    (encryptContent content key contentType).bind (fun env => decryptContent env key) =
      Except.ok (content, contentType) := by
  simp [encryptContent, decryptContent, joseCompactEncrypt, joseCompactDecrypt, hk,
    Except.bind]

/-- Closed witness for C1 at a concrete content, key and content type. -/
theorem encryptContent_decryptContent_roundtrip_witness :
    (List.replicate 32 7 : Bytes).length = SHL_KEY_LENGTH ∧
    (encryptContent [1, 2, 3] (List.replicate 32 7) "application/pdf").bind
        (fun env => decryptContent env (List.replicate 32 7)) =
      Except.ok ([1, 2, 3], "application/pdf") :=
  ⟨by decide,
   encryptContent_decryptContent_roundtrip [1, 2, 3] (List.replicate 32 7)
     "application/pdf" (by decide)⟩

/-- C2: decrypting under any 32-byte key other than the sealing key fails
with the undifferentiated decryption error; moreover a successful
`decryptContent` only ever returns the exact sealed plaintext under the
exact sealing key (never partially-decrypted bytes), and a malformed
header always fails. -/
theorem decryptContent_wrong_key_fails
    (content : Bytes) (contentType : String) (key1 key2 : Bytes)
    (h1 : key1.length = SHL_KEY_LENGTH) (h2 : key2.length = SHL_KEY_LENGTH)
    (hne : key1 ≠ key2) :
    (encryptContent content key1 contentType).bind (fun env => decryptContent env key2) =
      Except.error "DecryptionError" ∧
    (∀ (env : Jwe) (key pt : Bytes) (ct : String),
      decryptContent env key = Except.ok (pt, ct) →
        pt = env.plaintext ∧ key = env.sealedKey ∧ ct = env.header.cty) ∧
    (∀ (env : Jwe) (key : Bytes), ¬ (env.header.alg = "dir" ∧ env.header.enc = "A256GCM") →
      ∃ e, decryptContent env key = Except.error e) := by
  refine ⟨?_, ?_, ?_⟩
  · simp [encryptContent, decryptContent, joseCompactEncrypt, joseCompactDecrypt, h1, h2,
      Except.bind, hne]
  · intro env key pt ct h
    by_cases hk : key.length = SHL_KEY_LENGTH
    · simp only [decryptContent, hk, if_pos] at h
      unfold joseCompactDecrypt at h
      by_cases hhd : env.header.alg = "dir" ∧ env.header.enc = "A256GCM"
      · simp only [hhd, if_pos, and_self] at h
        by_cases hkey : env.sealedKey = key
        · simp only [hkey, if_pos] at h
          cases h
          exact ⟨rfl, hkey.symm, rfl⟩
        · simp [hkey] at h
      · simp [hhd] at h
    · simp [decryptContent, hk] at h
  · intro env key hhd
    by_cases hk : key.length = SHL_KEY_LENGTH
    · refine ⟨"DecryptionError", ?_⟩
      simp [decryptContent, hk, joseCompactDecrypt, hhd]
    · exact ⟨"Invalid key size", by simp [decryptContent, hk]⟩

/-- Closed witness for C2 at two concrete distinct 32-byte keys. -/
theorem decryptContent_wrong_key_fails_witness :
    (List.replicate 32 7 : Bytes).length = SHL_KEY_LENGTH ∧
    (List.replicate 32 9 : Bytes).length = SHL_KEY_LENGTH ∧
    (List.replicate 32 7 : Bytes) ≠ List.replicate 32 9 ∧
    (encryptContent [1, 2, 3] (List.replicate 32 7) "text/plain").bind
        (fun env => decryptContent env (List.replicate 32 9)) =
      Except.error "DecryptionError" :=
  ⟨by decide, by decide, by decide,
   (decryptContent_wrong_key_fails [1, 2, 3] "text/plain"
     (List.replicate 32 7) (List.replicate 32 9) (by decide) (by decide) (by decide)).1⟩

/-! ## Link registry and audit trail (apps/api/src/db/schema.ts) -/

/-- Lifecycle state of a link, the `status` column of the `shls` table. -/
inductive ShlStatus where
  | active
  | revoked
  | expired
deriving DecidableEq, Repr

/-- Event types of the `audit_logs` table. -/
inductive EventType where
  | SHL_CREATED
  | SHL_DELIVERED_SMS
  | SHL_DELIVERED_EMAIL
  | SHL_DELIVERY_FAILED
  | SHL_ACCESSED
  | SHL_REVOKED
deriving DecidableEq, Repr

/-- One row of the `shls` table (db/schema.ts). -/
structure ShlRow where
  id : String
  sessionId : Option String
  patientId : String
  patientName : String
  patientPhone : Option String
  patientEmail : Option String
  providerId : String
  providerName : String
  bundleS3Key : String
  documentS3Keys : String
  status : ShlStatus
  expiresAt : Nat
  accessCount : Nat
  lastAccessedAt : Option Nat
  createdAt : Nat
  revokedAt : Option Nat
  revokedBy : Option String
deriving DecidableEq, Repr

/-- One row of the `audit_logs` table (db/schema.ts). -/
structure AuditRow where
  id : String
  shlId : String
  eventType : EventType
  accessorIp : Option String
  accessorUserAgent : Option String
  accessorRecipient : Option String
  accessorLocation : Option String
  providerId : Option String
  providerName : Option String
  details : Option String
  timestamp : Nat
deriving DecidableEq, Repr

/-- Persistent database state: the `shls` and `audit_logs` tables. -/
structure SysState where
  shls : List ShlRow
  audit : List AuditRow
deriving DecidableEq, Repr

/-- Embedding of `select().from(shls).where(eq(shls.id, id)).limit(1)`. -/
def lookupShl (rows : List ShlRow) (id : String) : Option ShlRow :=
  rows.find? (fun r => r.id == id)

/-- Embedding of `db.update(shls).set(...).where(eq(shls.id, id))`. -/
def updateShl (rows : List ShlRow) (id : String) (f : ShlRow → ShlRow) : List ShlRow :=
  rows.map (fun r => if r.id == id then f r else r)

/-! ## Manifest endpoint (apps/api/src/routes/manifest.ts) -/

/-- Accessor context captured per manifest request: client IP, user agent,
the best-effort geolocation result (already JSON-encoded, `none` on
failure), and the fresh UUID drawn for the audit row. -/
structure AccessCtx where
  clientIp : String
  userAgent : Option String
  location : Option String
  eventId : String
deriving DecidableEq, Repr

/-- JavaScript `recipient || 'Anonymous'`: `null`, absent and the empty
string are all falsy. -/
def recipientOrAnonymous (recipient : Option String) : String :=
  match recipient with
  | some s => if s = "" then "Anonymous" else s
  | none => "Anonymous"

/-- Audit row inserted at step 5 of `handleManifest` (manifest.ts lines 131-140). -/
def mkAccessedRow (shlId : String) (recipient : Option String) (now : Nat)
    (ctx : AccessCtx) : AuditRow :=
  { id := ctx.eventId, shlId := shlId, eventType := EventType.SHL_ACCESSED,
    accessorIp := some ctx.clientIp, accessorUserAgent := ctx.userAgent,
    accessorRecipient := some (recipientOrAnonymous recipient),
    accessorLocation := ctx.location,
    providerId := none, providerName := none, details := none, timestamp := now }

/-- Full observable outcome of one manifest request: HTTP status, JSON
error message (if any), resulting tables, whether an access notification
was dispatched, and the storage key for which a fresh signed URL was
produced (the manifest response body references exactly this key). -/
structure ManifestOutcome where
  httpStatus : Nat
  errorMsg : Option String
  shls : List ShlRow
  audit : List AuditRow
  notificationSent : Bool
  signedUrlKey : Option String
deriving DecidableEq, Repr

/-- Embedding of `handleManifest` (manifest.ts lines 92-178): look up the
link (404 when absent), reject revoked then expired links with 410 and
stop, otherwise append an `SHL_ACCESSED` audit row, write
`accessCount := (read value) + 1` and `lastAccessedAt := now`, dispatch
the access notification and resolve the bundle storage key to a fresh
signed URL. -/
def handleManifest (st : SysState) (id : String) (recipient : Option String)
    (now : Nat) (ctx : AccessCtx) : ManifestOutcome :=
  match lookupShl st.shls id with
  | none =>
    { httpStatus := 404, errorMsg := some "Link not found",
      shls := st.shls, audit := st.audit, notificationSent := false, signedUrlKey := none }
  | some shl =>
    if shl.status = ShlStatus.revoked then
      { httpStatus := 410, errorMsg := some "This link has been revoked",
        shls := st.shls, audit := st.audit, notificationSent := false, signedUrlKey := none }
    else if shl.expiresAt < now then
      { httpStatus := 410, errorMsg := some "This link has expired",
        shls := updateShl st.shls id (fun r => { r with status := ShlStatus.expired }),
        audit := st.audit, notificationSent := false, signedUrlKey := none }
    else
      { httpStatus := 200, errorMsg := none,
        shls := updateShl st.shls id
          (fun r => { r with accessCount := shl.accessCount + 1, lastAccessedAt := some now }),
        audit := st.audit ++ [mkAccessedRow id recipient now ctx],
        notificationSent := true,
        signedUrlKey := some shl.bundleS3Key }

/-! ## Revocation endpoint (apps/api/src/routes/shl.ts lines 318-369) -/

/-- Observable outcome of one revoke request. -/
structure RevokeOutcome where
  httpStatus : Nat
  errorMsg : Option String
  shls : List ShlRow
  audit : List AuditRow
deriving DecidableEq, Repr

/-- Audit row inserted by `handleRevokeShl` (shl.ts lines 356-362). -/
def mkRevokedRow (shlId providerId providerName eventId : String) (now : Nat) : AuditRow :=
  { id := eventId, shlId := shlId, eventType := EventType.SHL_REVOKED,
    accessorIp := none, accessorUserAgent := none,
    accessorRecipient := none, accessorLocation := none,
    providerId := some providerId, providerName := some providerName,
    details := none, timestamp := now }

/-- Embedding of `handleRevokeShl` (shl.ts lines 318-369): look up the
link by id and the session patient id (404 when absent), reject a link
already `revoked` with 400, otherwise set `status := revoked`, stamp
`revokedAt` and `revokedBy`, and append an `SHL_REVOKED` audit row. -/
def handleRevokeShl (st : SysState) (id patientId providerId providerName : String)
    (now : Nat) (eventId : String) : RevokeOutcome :=
  match st.shls.find? (fun r => r.id == id && r.patientId == patientId) with
  | none =>
    { httpStatus := 404, errorMsg := some "Health link not found",
      shls := st.shls, audit := st.audit }
  | some shl =>
    if shl.status = ShlStatus.revoked then
      { httpStatus := 400, errorMsg := some "Health link is already revoked",
        shls := st.shls, audit := st.audit }
    else
      { httpStatus := 200, errorMsg := none,
        shls := updateShl st.shls id
          (fun r => { r with status := ShlStatus.revoked,
                             revokedAt := some now, revokedBy := some providerId }),
        audit := st.audit ++ [mkRevokedRow id providerId providerName eventId now] }

/-! ## Listing endpoint (apps/api/src/routes/shl.ts lines 213-247) -/

/-- One entry of the list response: the selected columns with the
display status recomputed from `expiresAt` without a registry write. -/
structure ShlListEntry where
  id : String
  patientName : String
  status : ShlStatus
  expiresAt : Nat
  accessCount : Nat
  createdAt : Nat
  documentCount : Nat
deriving DecidableEq, Repr

/-- Embedding of `handleListShls` (shl.ts lines 213-247): select the
rows of the session patient and map the display status to `expired`
when `expiresAt < now` and the stored status is `active`; the stored
rows are not written. -/
def handleListShls (st : SysState) (patientId : String) (now : Nat) : List ShlListEntry :=
  (st.shls.filter (fun r => r.patientId == patientId)).map (fun r =>
    { id := r.id, patientName := r.patientName,
      status := if r.expiresAt < now ∧ r.status = ShlStatus.active then ShlStatus.expired
                else r.status,
      expiresAt := r.expiresAt, accessCount := r.accessCount,
      createdAt := r.createdAt, documentCount := 0 })

/-! ## Reachable operations on a stored link -/

/-- One externally triggerable operation touching the registry after
issuance: a manifest request, a revoke request, or a listing request
(expiry-time advances are covered by quantifying over `now`). -/
inductive Op where
  | manifest (id : String) (recipient : Option String) (now : Nat) (ctx : AccessCtx)
  | revoke (id patientId providerId providerName : String) (now : Nat) (eventId : String)
  | listShls (patientId : String) (now : Nat)

/-- Effect of one operation on the stored tables. -/
def applyOp (st : SysState) : Op → SysState
  | Op.manifest id r now ctx =>
    let o := handleManifest st id r now ctx
    { shls := o.shls, audit := o.audit }
  | Op.revoke id pid prid prn now eid =>
    let o := handleRevokeShl st id pid prid prn now eid
    { shls := o.shls, audit := o.audit }
  | Op.listShls _ _ => st

/-- Effect of a sequence of operations. -/
def applyOps (st : SysState) (ops : List Op) : SysState :=
  ops.foldl applyOp st

/-! ## Registry helper lemmas -/

theorem mem_updateShl {rows : List ShlRow} {id : String} {f : ShlRow → ShlRow} {r' : ShlRow}
    (h : r' ∈ updateShl rows id f) :
    ∃ r ∈ rows, r' = if r.id == id then f r else r := by
  unfold updateShl at h
  rcases List.mem_map.mp h with ⟨r, hr, he⟩
  exact ⟨r, hr, he.symm⟩

theorem expire_write_idem (rows : List ShlRow) (id : String) :
    updateShl (updateShl rows id (fun r => { r with status := ShlStatus.expired })) id
      (fun r => { r with status := ShlStatus.expired }) =
    updateShl rows id (fun r => { r with status := ShlStatus.expired }) := by
  unfold updateShl
  rw [List.map_map]
  apply List.map_congr_left
  intro r _
  by_cases h : r.id == id <;> simp [h, Function.comp]

theorem lookupShl_updateShl (rows : List ShlRow) (id : String) (f : ShlRow → ShlRow)
    (hf : ∀ r, (f r).id = r.id) :
    lookupShl (updateShl rows id f) id = (lookupShl rows id).map f := by
  induction rows with
  | nil => rfl
  | cons r rs ih =>
    unfold lookupShl updateShl at *
    by_cases h : r.id == id
    · simp [List.find?, h, hf r]
    · simp only [List.map_cons]
      rw [if_neg h]
      simp only [List.find?, h]
      exact ih

/-- C3: a manifest request for an unknown id returns 404 and changes
nothing; for a stored `revoked` link it returns 410 with a message
identifying revocation and changes nothing; otherwise, when `now` is
past `expiresAt`, it persists status `expired` (a write changing no
other field, and idempotent) and returns 410 with a message identifying
expiry — in all three cases no `SHL_ACCESSED` audit row is appended,
`accessCount` and `lastAccessedAt` are untouched, no notification is
dispatched and no signed URL is produced. -/
theorem handleManifest_terminal_cases (st : SysState) (id : String)
    (recipient : Option String) (now : Nat) (ctx : AccessCtx) :
    (lookupShl st.shls id = none →
      handleManifest st id recipient now ctx =
        { httpStatus := 404, errorMsg := some "Link not found",
          shls := st.shls, audit := st.audit,
          notificationSent := false, signedUrlKey := none }) ∧
    (∀ shl, lookupShl st.shls id = some shl → shl.status = ShlStatus.revoked →
      handleManifest st id recipient now ctx =
        { httpStatus := 410, errorMsg := some "This link has been revoked",
          shls := st.shls, audit := st.audit,
          notificationSent := false, signedUrlKey := none }) ∧
    (∀ shl, lookupShl st.shls id = some shl → shl.status ≠ ShlStatus.revoked →
      shl.expiresAt < now →
      handleManifest st id recipient now ctx =
        { httpStatus := 410, errorMsg := some "This link has expired",
          shls := updateShl st.shls id (fun r => { r with status := ShlStatus.expired }),
          audit := st.audit,
          notificationSent := false, signedUrlKey := none } ∧
      (handleManifest
          { shls := updateShl st.shls id (fun r => { r with status := ShlStatus.expired }),
            audit := st.audit } id recipient now ctx).shls =
        updateShl st.shls id (fun r => { r with status := ShlStatus.expired })) := by
  refine ⟨?_, ?_, ?_⟩
  · intro h
    unfold handleManifest
    rw [h]
  · intro shl h hrev
    unfold handleManifest
    rw [h]
    simp [hrev]
  · intro shl h hrev hexp
    constructor
    · unfold handleManifest
      rw [h]
      simp [hrev, hexp]
    · unfold handleManifest
      rw [show lookupShl (updateShl st.shls id (fun r => { r with status := ShlStatus.expired })) id
            = (lookupShl st.shls id).map (fun r => { r with status := ShlStatus.expired })
          from lookupShl_updateShl st.shls id _ (fun r => rfl), h]
      simp only [Option.map_some]
      have hne : ShlStatus.expired ≠ ShlStatus.revoked := by decide
      simp [hne, hexp, expire_write_idem]

/-- Concrete registry row used by the closed witnesses below. -/
def sampleRow : ShlRow :=
  { id := "L1", sessionId := some "S1", patientId := "P1", patientName := "Pat One",
    patientPhone := some "5550001111", patientEmail := none,
    providerId := "DR1", providerName := "Dr One",
    bundleS3Key := "shls/L1/bundle.jwe", documentS3Keys := "[]",
    status := ShlStatus.active, expiresAt := 1000, accessCount := 0,
    lastAccessedAt := none, createdAt := 0, revokedAt := none, revokedBy := none }

/-- Concrete accessor context used by the closed witnesses below. -/
def sampleCtx : AccessCtx :=
  { clientIp := "203.0.113.5", userAgent := some "agent", location := none, eventId := "E1" }

/-- Closed witness for C3: a link expired at time 2000 yields the 410
expiry outcome with only the status column rewritten. -/
theorem handleManifest_terminal_cases_witness :
    lookupShl [sampleRow] "L1" = some sampleRow ∧
    sampleRow.status ≠ ShlStatus.revoked ∧
    sampleRow.expiresAt < 2000 ∧
    handleManifest { shls := [sampleRow], audit := [] } "L1" none 2000 sampleCtx =
      { httpStatus := 410, errorMsg := some "This link has expired",
        shls := updateShl [sampleRow] "L1" (fun r => { r with status := ShlStatus.expired }),
        audit := [], notificationSent := false, signedUrlKey := none } :=
  ⟨by decide, by decide, by decide,
   ((handleManifest_terminal_cases { shls := [sampleRow], audit := [] } "L1" none 2000
      sampleCtx).2.2 sampleRow (by decide) (by decide) (by decide)).1⟩

/-! ## Terminality of revocation -/

/-- Every stored row carrying this link id is in state `revoked`. -/
def RevokedAt (linkId : String) (rows : List ShlRow) : Prop :=
  ∀ r ∈ rows, r.id = linkId → r.status = ShlStatus.revoked

instance decRevokedAt (linkId : String) (rows : List ShlRow) : Decidable (RevokedAt linkId rows) :=
  inferInstanceAs (Decidable (∀ r ∈ rows, r.id = linkId → r.status = ShlStatus.revoked))

theorem lookupShl_mem {rows : List ShlRow} {id : String} {shl : ShlRow}
    (h : lookupShl rows id = some shl) : shl ∈ rows := by
  unfold lookupShl at h
  exact List.mem_of_find?_eq_some h

theorem lookupShl_id {rows : List ShlRow} {id : String} {shl : ShlRow}
    (h : lookupShl rows id = some shl) : shl.id = id := by
  unfold lookupShl at h
  have hp := List.find?_some h
  exact eq_of_beq hp

theorem revokedAt_updateShl_of_ne {linkId : String} {rows : List ShlRow}
    (id : String) (f : ShlRow → ShlRow) (hf : ∀ r, (f r).id = r.id)
    (hne : id ≠ linkId) (h : RevokedAt linkId rows) :
    RevokedAt linkId (updateShl rows id f) := by
  intro r' hr' hid
  rcases mem_updateShl hr' with ⟨r, hr, he⟩
  by_cases hm : r.id == id
  · rw [if_pos hm] at he
    rw [he] at hid ⊢
    rw [hf r] at hid
    exact absurd ((eq_of_beq hm).symm.trans hid) hne
  · rw [if_neg hm] at he
    rw [he] at hid ⊢
    exact h r hr hid

theorem revokedAt_updateShl_of_status {linkId : String} {rows : List ShlRow}
    (id : String) (f : ShlRow → ShlRow) (hfid : ∀ r, (f r).id = r.id)
    (hf : ∀ r, (f r).status = r.status ∨ (f r).status = ShlStatus.revoked)
    (h : RevokedAt linkId rows) :
    RevokedAt linkId (updateShl rows id f) := by
  intro r' hr' hid
  rcases mem_updateShl hr' with ⟨r, hr, he⟩
  by_cases hm : r.id == id
  · rw [if_pos hm] at he
    rw [he] at hid ⊢
    rw [hfid r] at hid
    rcases hf r with hs | hs
    · rw [hs]
      exact h r hr hid
    · exact hs
  · rw [if_neg hm] at he
    rw [he] at hid ⊢
    exact h r hr hid

theorem revokedAt_applyOp {linkId : String} {st : SysState}
    (h : RevokedAt linkId st.shls) (op : Op) :
    RevokedAt linkId (applyOp st op).shls := by
  cases op with
  | listShls pid now => exact h
  | revoke id pid prid prn now eid =>
    show RevokedAt linkId (handleRevokeShl st id pid prid prn now eid).shls
    unfold handleRevokeShl
    cases hf : st.shls.find? (fun r => r.id == id && r.patientId == pid) with
    | none => exact h
    | some shl =>
      by_cases hs : shl.status = ShlStatus.revoked
      · simp only [hs, if_pos]
        exact h
      · simp only [if_neg hs]
        exact revokedAt_updateShl_of_status id _ (fun r => rfl) (fun r => Or.inr rfl) h
  | manifest id rcp now ctx =>
    show RevokedAt linkId (handleManifest st id rcp now ctx).shls
    unfold handleManifest
    cases hf : lookupShl st.shls id with
    | none => exact h
    | some shl =>
      have hmem : shl ∈ st.shls := lookupShl_mem hf
      have hid : shl.id = id := lookupShl_id hf
      by_cases hs : shl.status = ShlStatus.revoked
      · simp only [hs, if_pos]
        exact h
      · simp only [if_neg hs]
        have hne : id ≠ linkId := by
          intro hcontra
          exact hs (h shl hmem (hcontra ▸ hid))
        by_cases hexp : shl.expiresAt < now
        · simp only [hexp, if_pos]
          exact revokedAt_updateShl_of_ne id _ (fun r => rfl) hne h
        · simp only [hexp, if_neg, if_false]
          exact revokedAt_updateShl_of_ne id _ (fun r => rfl) hne h

/-- C4: revoking an already-revoked link returns the "already revoked"
error and changes nothing; revoking any other link sets `status` to
`revoked`, stamps the revocation time and the acting provider and
appends an `SHL_REVOKED` audit row; and afterwards no reachable
sequence of operations (manifest requests, repeated revokes,
expiry-time advances via arbitrary `now`, listing) ever moves any
stored row of that link out of `revoked`. -/
theorem handleRevokeShl_terminal (st : SysState) :
    (∀ id patientId providerId providerName now eventId shl,
      st.shls.find? (fun r => r.id == id && r.patientId == patientId) = some shl →
      shl.status = ShlStatus.revoked →
      handleRevokeShl st id patientId providerId providerName now eventId =
        { httpStatus := 400, errorMsg := some "Health link is already revoked",
          shls := st.shls, audit := st.audit }) ∧
    (∀ id patientId providerId providerName now eventId shl,
      st.shls.find? (fun r => r.id == id && r.patientId == patientId) = some shl →
      shl.status ≠ ShlStatus.revoked →
      handleRevokeShl st id patientId providerId providerName now eventId =
        { httpStatus := 200, errorMsg := none,
          shls := updateShl st.shls id
            (fun r => { r with status := ShlStatus.revoked,
                               revokedAt := some now, revokedBy := some providerId }),
          audit := st.audit ++ [mkRevokedRow id providerId providerName eventId now] }) ∧
    (∀ linkId, RevokedAt linkId st.shls →
      ∀ ops, RevokedAt linkId (applyOps st ops).shls) := by
  refine ⟨?_, ?_, ?_⟩
  · intro id patientId providerId providerName now eventId shl hf hs
    unfold handleRevokeShl
    rw [hf]
    simp [hs]
  · intro id patientId providerId providerName now eventId shl hf hs
    unfold handleRevokeShl
    rw [hf]
    simp [hs]
  · intro linkId h ops
    induction ops generalizing st with
    | nil => exact h
    | cons op ops ih =>
      exact ih (applyOp st op) (revokedAt_applyOp h op)

/-- Concrete revoked registry row used by the closed witnesses below. -/
def sampleRevokedRow : ShlRow :=
  { sampleRow with status := ShlStatus.revoked,
                   revokedAt := some 500, revokedBy := some "DR1" }

/-- Closed witness for C4: revoking the already-revoked sample link is
rejected without changes, and after a manifest request at a later time
the stored state is still `revoked`. -/
theorem handleRevokeShl_terminal_witness :
    [sampleRevokedRow].find? (fun r => r.id == "L1" && r.patientId == "P1") =
      some sampleRevokedRow ∧
    sampleRevokedRow.status = ShlStatus.revoked ∧
    handleRevokeShl { shls := [sampleRevokedRow], audit := [] } "L1" "P1" "DR2" "Dr Two"
        3000 "E9" =
      { httpStatus := 400, errorMsg := some "Health link is already revoked",
        shls := [sampleRevokedRow], audit := [] } ∧
    RevokedAt "L1"
      (applyOps { shls := [sampleRevokedRow], audit := [] }
        [Op.manifest "L1" none 9999 sampleCtx]).shls :=
  ⟨by decide, by decide,
   (handleRevokeShl_terminal { shls := [sampleRevokedRow], audit := [] }).1
     "L1" "P1" "DR2" "Dr Two" 3000 "E9" sampleRevokedRow (by decide) (by decide),
   (handleRevokeShl_terminal { shls := [sampleRevokedRow], audit := [] }).2.2
     "L1" (by decide) [Op.manifest "L1" none 9999 sampleCtx]⟩

/-- C10: revoking an expired link succeeds — for a stored link whose
status is `expired`, or whose `expiresAt` has passed while the stored
status is still `active`, `handleRevokeShl` does not reject (only a
stored status of `revoked` is rejected): it transitions the stored
status to `revoked`, stamps the revocation time and the acting
provider, and appends the `SHL_REVOKED` audit row. -/
theorem handleRevokeShl_expired_succeeds (st : SysState)
    (id patientId providerId providerName : String) (now : Nat) (eventId : String)
    (shl : ShlRow)
    (hf : st.shls.find? (fun r => r.id == id && r.patientId == patientId) = some shl)
    (hs : shl.status = ShlStatus.expired ∨
          (shl.status = ShlStatus.active ∧ shl.expiresAt < now)) :
    handleRevokeShl st id patientId providerId providerName now eventId =
      { httpStatus := 200, errorMsg := none,
        shls := updateShl st.shls id
          (fun r => { r with status := ShlStatus.revoked,
                             revokedAt := some now, revokedBy := some providerId }),
        audit := st.audit ++ [mkRevokedRow id providerId providerName eventId now] } := by
  have hne : shl.status ≠ ShlStatus.revoked := by
    rcases hs with h | ⟨h, _⟩ <;> rw [h] <;> exact fun hc => ShlStatus.noConfusion hc
  unfold handleRevokeShl
  rw [hf]
  simp [hne]

/-- Concrete expired registry row used by the closed witnesses below. -/
def sampleExpiredRow : ShlRow :=
  { sampleRow with status := ShlStatus.expired }

/-- Closed witness for C10: revoking the expired sample link succeeds
and stamps the revocation. -/
theorem handleRevokeShl_expired_succeeds_witness :
    [sampleExpiredRow].find? (fun r => r.id == "L1" && r.patientId == "P1") =
      some sampleExpiredRow ∧
    sampleExpiredRow.status = ShlStatus.expired ∧
    handleRevokeShl { shls := [sampleExpiredRow], audit := [] } "L1" "P1" "DR2" "Dr Two"
        3000 "E9" =
      { httpStatus := 200, errorMsg := none,
        shls := updateShl [sampleExpiredRow] "L1"
          (fun r => { r with status := ShlStatus.revoked,
                             revokedAt := some 3000, revokedBy := some "DR2" }),
        audit := [mkRevokedRow "L1" "DR2" "Dr Two" "E9" 3000] } :=
  ⟨by decide, by decide, by
    have := handleRevokeShl_expired_succeeds { shls := [sampleExpiredRow], audit := [] }
      "L1" "P1" "DR2" "Dr Two" 3000 "E9" sampleExpiredRow (by decide) (Or.inl (by decide))
    simpa using this⟩

/-! ## Concurrent manifest requests (manifest.ts lines 100-149)

One manifest request on an active link performs, in order and with
`await` points between them: the row read (step 1), the audit insert
(step 5) and the access-count write (step 6) whose value is the count
read at step 1 plus one.  A concurrent execution of several requests is
an interleaving of these per-request atomic database actions. -/

/-- Atomic database action of request `i`. -/
inductive MAction where
  | readRow (i : Nat)
  | insertAudit (i : Nat)
  | writeCount (i : Nat)
deriving DecidableEq, Repr

/-- Per-request action sequence of a manifest request that passes the
status and expiry checks. -/
def manifestProgram (i : Nat) : List MAction :=
  [MAction.readRow i, MAction.insertAudit i, MAction.writeCount i]

/-- Interleaved-execution state: the stored tables plus each pending
request's snapshot of the link row taken by its read action. -/
structure ConcState where
  st : SysState
  regs : List (Option ShlRow)
deriving DecidableEq, Repr

/-- Effect of one atomic action, exactly as `handleManifest` performs it:
the read takes a snapshot, the audit insert appends the `SHL_ACCESSED`
row, and the count write stores `snapshot.accessCount + 1`. -/
def execAction (linkId : String) (recipient : Option String) (now : Nat)
    (ctx : Nat → AccessCtx) (s : ConcState) : MAction → ConcState
  | MAction.readRow i => { s with regs := s.regs.set i (lookupShl s.st.shls linkId) }
  | MAction.insertAudit i =>
    { s with st := { s.st with
        audit := s.st.audit ++ [mkAccessedRow linkId recipient now (ctx i)] } }
  | MAction.writeCount i =>
    match s.regs.getD i none with
    | some snap =>
      { s with st := { s.st with
          shls := updateShl s.st.shls linkId (fun r =>
            { r with accessCount := snap.accessCount + 1,
                     lastAccessedAt := some now }) } }
    | none => s

/-- Effect of a whole action trace. -/
def execTrace (linkId : String) (recipient : Option String) (now : Nat)
    (ctx : Nat → AccessCtx) (s : ConcState) (tr : List MAction) : ConcState :=
  tr.foldl (execAction linkId recipient now ctx) s

/-- Decidable check that `t` is an interleaving of the two sequences
`xs` and `ys` (each kept in program order). -/
def interleaves {α : Type} [DecidableEq α] : List α → List α → List α → Bool
  | xs, ys, [] => xs.isEmpty && ys.isEmpty
  | xs, ys, t :: ts =>
    (match xs with
     | x :: xs2 => x == t && interleaves xs2 ys ts
     | [] => false)
    ||
    (match ys with
     | y :: ys2 => y == t && interleaves xs ys2 ts
     | [] => false)

/-- Interleaving exhibiting the lost update: both requests read before
either writes. -/
def lostUpdateTrace : List MAction :=
  [MAction.readRow 0, MAction.readRow 1,
   MAction.insertAudit 0, MAction.writeCount 0,
   MAction.insertAudit 1, MAction.writeCount 1]

/-- Accessor contexts of the two concurrent sample requests. -/
def sampleCtx2 : Nat → AccessCtx :=
  fun i => { clientIp := "203.0.113.5", userAgent := some "agent",
             location := none, eventId := if i = 0 then "E0" else "E1" }

/-- Counterexample to C8 as stated: a legal interleaving of two
complete concurrent manifest requests against the same active link
(both pass the status checks, both append their audit row, both perform
their count write) leaves `accessCount = 1`, not `0 + 2`: the
read-modify-write loses one update. -/
theorem concurrent_manifest_lost_update :
    interleaves (manifestProgram 0) (manifestProgram 1) lostUpdateTrace = true ∧
    (execTrace "L1" none 100 sampleCtx2
        { st := { shls := [sampleRow], audit := [] }, regs := [none, none] }
        lostUpdateTrace).st.shls =
      [{ sampleRow with accessCount := 1, lastAccessedAt := some 100 }] ∧
    (execTrace "L1" none 100 sampleCtx2
        { st := { shls := [sampleRow], audit := [] }, regs := [none, none] }
        lostUpdateTrace).st.audit.length = 2 ∧
    sampleRow.accessCount = 0 ∧ (1 : Nat) ≠ 0 + 2 := by
  refine ⟨by decide, by decide, by decide, by decide, by decide⟩

/-- Sequential repetition of manifest requests (one completes before the
next starts). -/
def repeatManifest (st : SysState) (id : String) (recipient : Option String) (now : Nat)
    (ctxs : List AccessCtx) : SysState :=
  ctxs.foldl (fun s c =>
    let o := handleManifest s id recipient now c
    { shls := o.shls, audit := o.audit }) st

/-- C8 (amended): N manifest requests against the same active,
unexpired link applied sequentially (each completing before the next
starts) increase `accessCount` by exactly N and record exactly N
`SHL_ACCESSED` audit events; the per-request increment is a
read-modify-write of the value read at the start of that request, not
an atomic increment, so interleaved concurrent requests can lose
updates. -/
theorem sequential_manifest_accounting (id : String) (recipient : Option String)
    (now : Nat) :
    ∀ (ctxs : List AccessCtx) (st : SysState) (shl : ShlRow),
      lookupShl st.shls id = some shl →
      shl.status ≠ ShlStatus.revoked →
      ¬ shl.expiresAt < now →
      ∃ shl', lookupShl (repeatManifest st id recipient now ctxs).shls id = some shl' ∧
        shl'.accessCount = shl.accessCount + ctxs.length ∧
        shl'.status = shl.status ∧
        shl'.expiresAt = shl.expiresAt ∧
        (repeatManifest st id recipient now ctxs).audit.length =
          st.audit.length + ctxs.length := by
  intro ctxs
  induction ctxs with
  | nil =>
    intro st shl hf hrev hexp
    exact ⟨shl, hf, by simp [repeatManifest], rfl, rfl, by simp [repeatManifest]⟩
  | cons c cs ih =>
    intro st shl hf hrev hexp
    have hstep : handleManifest st id recipient now c =
        { httpStatus := 200, errorMsg := none,
          shls := updateShl st.shls id
            (fun r => { r with accessCount := shl.accessCount + 1,
                               lastAccessedAt := some now }),
          audit := st.audit ++ [mkAccessedRow id recipient now c],
          notificationSent := true,
          signedUrlKey := some shl.bundleS3Key } := by
      unfold handleManifest
      rw [hf]
      simp [hrev, hexp]
    have hnext : lookupShl (updateShl st.shls id
        (fun r => { r with accessCount := shl.accessCount + 1,
                           lastAccessedAt := some now })) id =
        some { shl with accessCount := shl.accessCount + 1,
                        lastAccessedAt := some now } := by
      rw [lookupShl_updateShl st.shls id
            (fun r => { r with accessCount := shl.accessCount + 1,
                               lastAccessedAt := some now }) (fun r => rfl), hf]
      rfl
    have hrep : repeatManifest st id recipient now (c :: cs) =
        repeatManifest
          { shls := updateShl st.shls id
              (fun r => { r with accessCount := shl.accessCount + 1,
                                 lastAccessedAt := some now }),
            audit := st.audit ++ [mkAccessedRow id recipient now c] }
          id recipient now cs := by
      unfold repeatManifest
      simp only [List.foldl_cons]
      rw [show (let o := handleManifest st id recipient now c
                { shls := o.shls, audit := o.audit } : SysState) =
            { shls := updateShl st.shls id
                (fun r => { r with accessCount := shl.accessCount + 1,
                                   lastAccessedAt := some now }),
              audit := st.audit ++ [mkAccessedRow id recipient now c] }
          from by rw [hstep]]
    rw [hrep]
    rcases ih
        { shls := updateShl st.shls id
            (fun r => { r with accessCount := shl.accessCount + 1,
                               lastAccessedAt := some now }),
          audit := st.audit ++ [mkAccessedRow id recipient now c] }
        { shl with accessCount := shl.accessCount + 1, lastAccessedAt := some now }
        hnext (by simpa using hrev) (by simpa using hexp) with
      ⟨shl', hl, hc, hstat, hexp', haud⟩
    refine ⟨shl', hl, ?_, by simpa using hstat, by simpa using hexp', ?_⟩
    · have hc2 : shl'.accessCount = (shl.accessCount + 1) + cs.length := hc
      rw [hc2]
      simp only [List.length_cons]
      omega
    · have haud2 : (repeatManifest
          { shls := updateShl st.shls id
              (fun r => { r with accessCount := shl.accessCount + 1,
                                 lastAccessedAt := some now }),
            audit := st.audit ++ [mkAccessedRow id recipient now c] }
          id recipient now cs).audit.length =
          (st.audit ++ [mkAccessedRow id recipient now c]).length + cs.length := haud
      simp only [List.length_append, List.length_cons, List.length_nil] at haud2 ⊢
      omega

/-- Closed witness for the amended C8: two sequential manifest requests
against the active sample link raise `accessCount` from 0 to 2 and
record 2 audit events. -/
theorem sequential_manifest_accounting_witness :
    lookupShl [sampleRow] "L1" = some sampleRow ∧
    sampleRow.status ≠ ShlStatus.revoked ∧
    ¬ sampleRow.expiresAt < 100 ∧
    ∃ shl', lookupShl (repeatManifest { shls := [sampleRow], audit := [] } "L1" none 100
        [sampleCtx2 0, sampleCtx2 1]).shls "L1" = some shl' ∧
      shl'.accessCount = sampleRow.accessCount + 2 ∧
      shl'.status = sampleRow.status ∧
      shl'.expiresAt = sampleRow.expiresAt ∧
      (repeatManifest { shls := [sampleRow], audit := [] } "L1" none 100
        [sampleCtx2 0, sampleCtx2 1]).audit.length = 0 + 2 :=
  ⟨by decide, by decide, by decide,
   sequential_manifest_accounting "L1" none 100 [sampleCtx2 0, sampleCtx2 1]
     { shls := [sampleRow], audit := [] } sampleRow (by decide) (by decide) (by decide)⟩

/-! ## Base64url and JSON helpers

Models of `jose.base64url.encode` (unpadded base64url over raw bytes)
and of the `JSON.stringify` output shapes this system produces. -/

/-- Unpadded base64url alphabet. -/
def b64Alphabet : List Char :=
  "ABCDEFGHIJKLMNOPQRSTUVWXYZabcdefghijklmnopqrstuvwxyz0123456789-_".toList

/-- Character for one 6-bit group. -/
def b64Char (n : Nat) : Char := b64Alphabet.getD n 'A'

/-- Modelled from the spec: `jose.base64url.encode` — unpadded base64url
of a byte string (three bytes become four characters; a one or two byte
tail becomes two or three characters). -/
def base64urlEncode : Bytes → List Char
  | [] => []
  | [b1] => [b64Char (b1 / 4), b64Char (b1 % 4 * 16)]
  | [b1, b2] =>
    [b64Char (b1 / 4), b64Char (b1 % 4 * 16 + b2 / 16), b64Char (b2 % 16 * 4)]
  | b1 :: b2 :: b3 :: rest =>
    b64Char (b1 / 4) :: b64Char (b1 % 4 * 16 + b2 / 16) ::
      b64Char (b2 % 16 * 4 + b3 / 64) :: b64Char (b3 % 64) :: base64urlEncode rest

/-- String form of `base64urlEncode`. -/
def base64urlEncodeStr (bs : Bytes) : String := String.mk (base64urlEncode bs)

/-- UTF-8 bytes of a string (`TextEncoder.encode`). -/
def utf8Bytes (s : String) : Bytes := s.toUTF8.toList.map (fun b => b.toNat)

/-- JSON escaping of one character (quote and backslash; the strings
this system serializes contain no control characters). -/
def jsonEscapeChar (c : Char) : List Char :=
  if c = '"' ∨ c = '\\' then ['\\', c] else [c]

/-- JSON escaping of a string body. -/
def jsonEscape (s : String) : String := String.mk (List.flatten (s.toList.map jsonEscapeChar))

/-- `JSON.stringify` of a list of strings (the `documentS3Keys` column). -/
def jsonStringArray (xs : List String) : String :=
  "[" ++ String.intercalate "," (xs.map (fun s => "\"" ++ jsonEscape s ++ "\"")) ++ "]"

/-! ## SHL payload (apps/api/src/services/shl.ts lines 181-208) -/

/-- Externally-visible SHL payload: exactly the four fields `url`,
`key`, `exp`, `label` (shared/types `ShlPayload`). -/
structure ShlPayload where
  url : String
  key : String
  exp : Nat
  label : String
deriving DecidableEq, Repr

/-- Embedding of `createShlPayload` (shl.ts lines 181-193): `exp` is
whole epoch seconds (floor of the expiry instant in milliseconds over
1000) and `label` is truncated to 80 UTF-16 units (`slice(0, 80)`,
embedded as taking 80 characters). -/
def createShlPayload (manifestUrl keyBase64Url : String) (expiresAtMs : Nat)
    (patientName : String) : ShlPayload :=
  { url := manifestUrl, key := keyBase64Url,
    exp := expiresAtMs / 1000,
    label := String.mk (("Documents for " ++ patientName).toList.take 80) }

/-- `JSON.stringify` of an `ShlPayload` (field order url, key, exp, label). -/
def shlPayloadJson (p : ShlPayload) : String :=
  "\x7b\"url\":\"" ++ jsonEscape p.url ++ "\",\"key\":\"" ++ jsonEscape p.key ++
    "\",\"exp\":" ++ toString p.exp ++ ",\"label\":\"" ++ jsonEscape p.label ++ "\"\x7d"

/-- Embedding of `encodeShlPayload` (shl.ts lines 198-201): base64url of
the UTF-8 bytes of the payload JSON. -/
def encodeShlPayload (p : ShlPayload) : String :=
  String.mk (base64urlEncode (utf8Bytes (shlPayloadJson p)))

/-- Server configuration consumed by issuance (config.ts). -/
structure Config where
  apiUrl : String
  viewerUrl : String
  shlExpirationDaysDefault : Int
  shlExpirationDaysMax : Int
deriving Repr

/-- Embedding of `createViewerUrl` (shl.ts lines 206-208): the payload
is carried in the URL fragment. -/
def createViewerUrl (cfg : Config) (shlPayloadBase64 : String) : String :=
  cfg.viewerUrl ++ "/#shlink:/" ++ shlPayloadBase64

/-! ## Artifact storage (apps/api/src/services/storage.ts) -/

/-- One stored S3 object: key plus the JWE envelope at rest. -/
structure S3Object where
  key : String
  content : Jwe
deriving DecidableEq, Repr

/-- Embedding of `generateS3Key` (storage.ts lines 39-41). -/
def generateS3Key (manifestId fileId : String) : String :=
  "shls/" ++ manifestId ++ "/" ++ fileId ++ ".jwe"

/-! ## Link issuance (apps/api/src/services/shl.ts lines 227-318 and
apps/api/src/routes/shl.ts lines 94-208) -/

/-- Collaborators of one issuance attempt, with fault injection: the
patient fetch, the per-document metadata and content fetches, which S3
puts fail, the serialized FHIR bundle plaintext (its structured
construction by `createFhirBundle` is key-independent: patient data,
fresh UUIDs and signed URLs derived from document storage key names),
and the delivery results of the notification collaborator. -/
structure IssueDeps where
  patientName : Except String String
  fetchMeta : String → Except String String
  fetchDoc : String → Except String (Bytes × String)
  uploadFails : String → Bool
  bundleJson : String
  smsSent : Bool
  emailSent : Bool

/-- Step 4 of `generateShl` (shl.ts lines 246-273): for each requested
document in order, fetch metadata, fetch content, seal with the SHL
key, and upload to S3; the first failure aborts the loop, leaving the
uploads already performed in place.  Returns the document storage keys
in order together with the resulting S3 state. -/
def uploadDocsLoop (deps : IssueDeps) (key : Bytes) (manifestId : String) :
    List String → List S3Object → Except String (List String) × List S3Object
  | [], s3 => (Except.ok [], s3)
  | docId :: rest, s3 =>
    match deps.fetchMeta docId with
    | Except.error e => (Except.error e, s3)
    | Except.ok _ =>
      match deps.fetchDoc docId with
      | Except.error e => (Except.error e, s3)
      | Except.ok (content, contentType) =>
        match encryptContent content key contentType with
        | Except.error e => (Except.error e, s3)
        | Except.ok env =>
          let s3Key := generateS3Key manifestId ("doc-" ++ docId)
          if deps.uploadFails s3Key then (Except.error "upload failed", s3)
          else
            match uploadDocsLoop deps key manifestId rest (s3 ++ [⟨s3Key, env⟩]) with
            | (Except.ok keys, s3f) => (Except.ok (s3Key :: keys), s3f)
            | (Except.error e, s3f) => (Except.error e, s3f)

/-- Result record of `generateShl` (shl.ts `GenerateShlResult`). -/
structure GenerateShlResult where
  id : String
  viewerUrl : String
  shlPayload : String
  bundleS3Key : String
  documentS3Keys : List String
  expiresAtMs : Nat
  patientName : String
deriving DecidableEq, Repr

/-- Embedding of `generateShl` (shl.ts lines 227-318).  The random
draws (the 32-byte key and the manifest id) are explicit arguments; the
expiry is `now` plus the requested whole days (`Date.setDate`, embedded
as fixed 86400000 ms days).  Any collaborator failure aborts with the
S3 uploads performed so far left in place; no cleanup is attempted. -/
def generateShl (cfg : Config) (deps : IssueDeps) (key : Bytes) (manifestId : String)
    (documentIds : List String) (expirationDays : Int) (nowMs : Nat)
    (s3 : List S3Object) : Except String GenerateShlResult × List S3Object :=
  if key.length ≠ SHL_KEY_LENGTH then (Except.error "Invalid key length", s3)
  else
    let keyBase64Url := base64urlEncodeStr key
    match deps.patientName with
    | Except.error e => (Except.error e, s3)
    | Except.ok patientName =>
      match uploadDocsLoop deps key manifestId documentIds s3 with
      | (Except.error e, s3b) => (Except.error e, s3b)
      | (Except.ok docKeys, s3b) =>
        match encryptContent (utf8Bytes deps.bundleJson) key "application/fhir+json" with
        | Except.error e => (Except.error e, s3b)
        | Except.ok envB =>
          let bundleS3Key := generateS3Key manifestId "bundle"
          if deps.uploadFails bundleS3Key then (Except.error "upload failed", s3b)
          else
            let s3c := s3b ++ [⟨bundleS3Key, envB⟩]
            let expiresAtMs := nowMs + expirationDays.toNat * 86400000
            let manifestUrl := cfg.apiUrl ++ "/shl/" ++ manifestId ++ "/manifest"
            let payload := createShlPayload manifestUrl keyBase64Url expiresAtMs patientName
            let payloadB64 := encodeShlPayload payload
            (Except.ok
              { id := manifestId,
                viewerUrl := createViewerUrl cfg payloadB64,
                shlPayload := "shlink:/" ++ payloadB64,
                bundleS3Key := bundleS3Key,
                documentS3Keys := docKeys,
                expiresAtMs := expiresAtMs,
                patientName := patientName }, s3c)

/-- Authenticated session context of the issuing provider. -/
structure SessionCtx where
  sessionId : String
  patientId : String
  providerId : String
  providerName : String
deriving DecidableEq, Repr

/-- Request body of `POST /api/shl` (`GenerateShlBody`). -/
structure GenerateShlBody where
  documentIds : List String
  phone : Option String
  email : Option String
  expirationDays : Int
deriving DecidableEq, Repr

/-- JavaScript truthiness of an optional string: `null`, absent and the
empty string are falsy. -/
def strTruthy : Option String → Bool
  | some s => !(s == "")
  | none => false

/-- Embedding of the expiration clamp (shl.ts lines 115-118):
`Math.min(Math.max(1, expirationDays || default), max)` — the JS `||`
replaces a requested value of 0 (falsy) by the configured default
before clamping. -/
def validExpiration (expirationDays : Int) (cfg : Config) : Int :=
  min (max 1 (if expirationDays = 0 then cfg.shlExpirationDaysDefault else expirationDays))
    cfg.shlExpirationDaysMax

/-- `JSON.stringify` of the `SHL_CREATED` audit details. -/
def createdDetails (documentCount : Nat) (expirationDays : Int) : String :=
  "\x7b\"documentCount\":" ++ toString documentCount ++
    ",\"expirationDays\":" ++ toString expirationDays ++ "\x7d"

/-- Response of a successful issuance (`GenerateShlResponse`). -/
structure GenerateShlResponse where
  id : String
  viewerUrl : String
  expiresAtMs : Nat
  documentCount : Nat
  smsSent : Bool
  emailSent : Bool
deriving DecidableEq, Repr

/-- Full observable outcome of one issuance request. -/
structure GenerateOutcome where
  httpStatus : Nat
  errorMsg : Option String
  shls : List ShlRow
  audit : List AuditRow
  s3 : List S3Object
  response : Option GenerateShlResponse
deriving DecidableEq, Repr

/-- Registry row inserted on successful issuance (shl.ts lines 136-149;
`accessCount` and `createdAt` filled by the column defaults). -/
def issuedRow (session : SessionCtx) (body : GenerateShlBody)
    (result : GenerateShlResult) (nowMs : Nat) : ShlRow :=
  { id := result.id, sessionId := some session.sessionId,
    patientId := session.patientId, patientName := result.patientName,
    patientPhone := body.phone, patientEmail := body.email,
    providerId := session.providerId, providerName := session.providerName,
    bundleS3Key := result.bundleS3Key,
    documentS3Keys := jsonStringArray result.documentS3Keys,
    status := ShlStatus.active, expiresAt := result.expiresAtMs,
    accessCount := 0, lastAccessedAt := none, createdAt := nowMs,
    revokedAt := none, revokedBy := none }

/-- Embedding of `handleGenerateShl` (shl.ts lines 94-208): validate
(at least one document, at least one truthy contact channel), clamp the
expiration window, run `generateShl`, and on success insert the
registry row, the `SHL_CREATED` audit row and the per-channel delivery
audit rows and answer 201; any `generateShl` failure is caught and
answered 500 with the registry and audit tables untouched. -/
def handleGenerateShl (cfg : Config) (deps : IssueDeps) (st : SysState)
    (s3 : List S3Object) (session : SessionCtx) (body : GenerateShlBody)
    (key : Bytes) (manifestId : String) (nowMs : Nat)
    (eidCreated eidSms eidEmail : String) : GenerateOutcome :=
  if body.documentIds.isEmpty then
    { httpStatus := 400, errorMsg := some "At least one document must be selected",
      shls := st.shls, audit := st.audit, s3 := s3, response := none }
  else if !strTruthy body.phone && !strTruthy body.email then
    { httpStatus := 400,
      errorMsg := some "At least one contact method (phone or email) is required",
      shls := st.shls, audit := st.audit, s3 := s3, response := none }
  else
    let validExp := validExpiration body.expirationDays cfg
    match generateShl cfg deps key manifestId body.documentIds validExp nowMs s3 with
    | (Except.error _, s3b) =>
      { httpStatus := 500, errorMsg := some "Failed to generate health link",
        shls := st.shls, audit := st.audit, s3 := s3b, response := none }
    | (Except.ok result, s3b) =>
      let createdRow : AuditRow :=
        { id := eidCreated, shlId := result.id, eventType := EventType.SHL_CREATED,
          accessorIp := none, accessorUserAgent := none,
          accessorRecipient := none, accessorLocation := none,
          providerId := some session.providerId, providerName := some session.providerName,
          details := some (createdDetails body.documentIds.length validExp),
          timestamp := nowMs }
      let smsRows : List AuditRow :=
        if strTruthy body.phone then
          [{ id := eidSms, shlId := result.id,
             eventType := if deps.smsSent then EventType.SHL_DELIVERED_SMS
                          else EventType.SHL_DELIVERY_FAILED,
             accessorIp := none, accessorUserAgent := none,
             accessorRecipient := none, accessorLocation := none,
             providerId := none, providerName := none,
             details := none, timestamp := nowMs }]
        else []
      let emailRows : List AuditRow :=
        if strTruthy body.email then
          [{ id := eidEmail, shlId := result.id,
             eventType := if deps.emailSent then EventType.SHL_DELIVERED_EMAIL
                          else EventType.SHL_DELIVERY_FAILED,
             accessorIp := none, accessorUserAgent := none,
             accessorRecipient := none, accessorLocation := none,
             providerId := none, providerName := none,
             details := none, timestamp := nowMs }]
        else []
      { httpStatus := 201, errorMsg := none,
        shls := st.shls ++ [issuedRow session body result nowMs],
        audit := st.audit ++ [createdRow] ++ smsRows ++ emailRows,
        s3 := s3b,
        response := some
          { id := result.id, viewerUrl := result.viewerUrl,
            expiresAtMs := result.expiresAtMs,
            documentCount := body.documentIds.length,
            smsSent := deps.smsSent, emailSent := deps.emailSent } }

/-! ## Shape of a successful issuance -/

/-- Inversion of a successful `generateShl` run: the result is exactly
the record built in the final branch — manifest id, bundle storage key
`shls/<manifestId>/bundle.jwe`, the document storage keys produced by
the upload loop, expiry `now + days`, and the `shlink:/` payload built
from the manifest URL, the base64url key and the expiry. -/
theorem generateShl_ok_shape (cfg : Config) (deps : IssueDeps) (key : Bytes)
    (manifestId : String) (docIds : List String) (ed : Int) (nowMs : Nat)
    (s3 s3b : List S3Object) (result : GenerateShlResult)
    (h : generateShl cfg deps key manifestId docIds ed nowMs s3 = (Except.ok result, s3b)) :
    ∃ patientName docKeys,
      deps.patientName = Except.ok patientName ∧
      (uploadDocsLoop deps key manifestId docIds s3).1 = Except.ok docKeys ∧
      result =
        { id := manifestId,
          viewerUrl := createViewerUrl cfg (encodeShlPayload
            (createShlPayload (cfg.apiUrl ++ "/shl/" ++ manifestId ++ "/manifest")
              (base64urlEncodeStr key) (nowMs + ed.toNat * 86400000) patientName)),
          shlPayload := "shlink:/" ++ encodeShlPayload
            (createShlPayload (cfg.apiUrl ++ "/shl/" ++ manifestId ++ "/manifest")
              (base64urlEncodeStr key) (nowMs + ed.toNat * 86400000) patientName),
          bundleS3Key := generateS3Key manifestId "bundle",
          documentS3Keys := docKeys,
          expiresAtMs := nowMs + ed.toNat * 86400000,
          patientName := patientName } := by
  unfold generateShl at h
  split at h
  · simp at h
  · split at h
    · simp at h
    · next patientName hpat =>
      split at h
      · simp at h
      · next docKeys s3mid hloop =>
        split at h
        · simp at h
        · dsimp only at h
          split at h
          · simp at h
          · rw [Prod.mk.injEq] at h
            obtain ⟨hres, _⟩ := h
            rw [Except.ok.injEq] at hres
            exact ⟨patientName, docKeys, hpat,
              by rw [hloop], hres.symm⟩

/-! ## Validation and the expiration clamp (C6) -/

/-- Clamp of the requested expiration window exactly as the spec words
it (for comparison with the implemented `validExpiration`): the
requested value clamped into `[1, maxDays]`, with no default
substitution. -/
def specClampedExpiration (expirationDays : Int) (cfg : Config) : Int :=
  min (max 1 expirationDays) cfg.shlExpirationDaysMax

/-- Configuration with the defaults of config.ts / constants.ts
(default window 90 days, maximum 365 days). -/
def defaultConfig : Config :=
  { apiUrl := "http://localhost:3000", viewerUrl := "http://localhost:5174",
    shlExpirationDaysDefault := SHL_EXPIRATION_DAYS_DEFAULT,
    shlExpirationDaysMax := SHL_EXPIRATION_DAYS_MAX }

/-- Collaborators that always succeed, used by concrete runs. -/
def sampleDeps : IssueDeps :=
  { patientName := Except.ok "Pat One",
    fetchMeta := fun _ => Except.ok "meta",
    fetchDoc := fun _ => Except.ok ([1, 2], "application/pdf"),
    uploadFails := fun _ => false,
    bundleJson := "bundle",
    smsSent := true, emailSent := true }

/-- Concrete 32-byte key for concrete runs. -/
def sampleKey : Bytes := List.replicate 32 7

/-- Concrete session context for concrete runs. -/
def sampleSession : SessionCtx :=
  { sessionId := "S1", patientId := "P1", providerId := "DR1", providerName := "Dr One" }

/-- Counterexample to C6 as stated: a requested `expirationDays` of 0 is
at or below 1, so the claim demands an effective window of exactly
1 day, but the implementation substitutes the 90-day default before
clamping (JavaScript `expirationDays || default` treats 0 as falsy):
the committed link expires 90 days out, not 1. -/
theorem validExpiration_zero_counterexample :
    validExpiration 0 defaultConfig = 90 ∧
    specClampedExpiration 0 defaultConfig = 1 ∧
    (90 : Int) ≠ 1 ∧
    ((handleGenerateShl defaultConfig sampleDeps { shls := [], audit := [] } []
        sampleSession
        { documentIds := ["d1"], phone := some "5550001111", email := none,
          expirationDays := 0 }
        sampleKey "M1" 0 "E1" "E2" "E3").shls.map (fun r => r.expiresAt)) =
      [90 * 86400000] := by
  refine ⟨by decide, by decide, by decide, ?_⟩
  decide

/-- C6 (amended): a request with zero document ids, or whose phone and
email are both absent or empty, is rejected with 400 and nothing is
committed; the effective expiration window equals the requested value
clamped into `[1, maxDays]` whenever the requested value is nonzero (a
requested 0 is first replaced by the configured default because of the
JavaScript `||`), so every nonzero requested value at or below 1 yields
exactly 1 day; and the committed link expires exactly `now` plus the
effective window in days. -/
theorem handleGenerateShl_validation (cfg : Config) (deps : IssueDeps) (st : SysState)
    (s3 : List S3Object) (session : SessionCtx) (body : GenerateShlBody)
    (key : Bytes) (manifestId : String) (nowMs : Nat) (e1 e2 e3 : String) :
    (body.documentIds = [] →
      handleGenerateShl cfg deps st s3 session body key manifestId nowMs e1 e2 e3 =
        { httpStatus := 400, errorMsg := some "At least one document must be selected",
          shls := st.shls, audit := st.audit, s3 := s3, response := none }) ∧
    (body.documentIds ≠ [] → strTruthy body.phone = false → strTruthy body.email = false →
      handleGenerateShl cfg deps st s3 session body key manifestId nowMs e1 e2 e3 =
        { httpStatus := 400,
          errorMsg := some "At least one contact method (phone or email) is required",
          shls := st.shls, audit := st.audit, s3 := s3, response := none }) ∧
    (body.expirationDays ≠ 0 →
      validExpiration body.expirationDays cfg =
        specClampedExpiration body.expirationDays cfg) ∧
    (body.expirationDays ≠ 0 → body.expirationDays ≤ 1 → 1 ≤ cfg.shlExpirationDaysMax →
      validExpiration body.expirationDays cfg = 1) ∧
    (∀ result s3b,
      generateShl cfg deps key manifestId body.documentIds
          (validExpiration body.expirationDays cfg) nowMs s3 = (Except.ok result, s3b) →
      result.expiresAtMs =
        nowMs + (validExpiration body.expirationDays cfg).toNat * 86400000) := by
  refine ⟨?_, ?_, ?_, ?_, ?_⟩
  · intro hdocs
    unfold handleGenerateShl
    rw [hdocs]
    rfl
  · intro hdocs hphone hemail
    unfold handleGenerateShl
    rw [if_neg (by simpa [List.isEmpty_iff] using hdocs)]
    rw [if_pos (by rw [hphone, hemail]; rfl)]
  · intro hne
    unfold validExpiration specClampedExpiration
    rw [if_neg hne]
  · intro hne hle hmax
    unfold validExpiration
    rw [if_neg hne]
    have h1 : max 1 body.expirationDays = 1 := by omega
    rw [h1]
    omega
  · intro result s3b h
    rcases generateShl_ok_shape cfg deps key manifestId body.documentIds
        (validExpiration body.expirationDays cfg) nowMs s3 s3b result h with
      ⟨pn, dk, _, _, hres⟩
    rw [hres]

/-- Closed witness for the amended C6: a request with no documents is
rejected with 400 and commits nothing, and a request for -5 days gets
an effective window of exactly 1 day. -/
theorem handleGenerateShl_validation_witness :
    handleGenerateShl defaultConfig sampleDeps { shls := [], audit := [] } []
        sampleSession
        { documentIds := [], phone := some "5550001111", email := none,
          expirationDays := 30 }
        sampleKey "M1" 0 "E1" "E2" "E3" =
      { httpStatus := 400, errorMsg := some "At least one document must be selected",
        shls := [], audit := [], s3 := [], response := none } ∧
    validExpiration (-5) defaultConfig = 1 :=
  ⟨(handleGenerateShl_validation defaultConfig sampleDeps { shls := [], audit := [] } []
      sampleSession
      { documentIds := [], phone := some "5550001111", email := none,
        expirationDays := 30 }
      sampleKey "M1" 0 "E1" "E2" "E3").1 rfl,
   (handleGenerateShl_validation defaultConfig sampleDeps { shls := [], audit := [] } []
      sampleSession
      { documentIds := ["d1"], phone := some "5550001111", email := none,
        expirationDays := -5 }
      sampleKey "M1" 0 "E1" "E2" "E3").2.2.2.1 (by decide) (by decide) (by decide)⟩

/-! ## Issuance failure leaves uploads orphaned (C7) -/

theorem uploadDocsLoop_s3_extends (deps : IssueDeps) (key : Bytes) (manifestId : String) :
    ∀ (docIds : List String) (s3 : List S3Object),
      ∃ objs, (uploadDocsLoop deps key manifestId docIds s3).2 = s3 ++ objs := by
  intro docIds
  induction docIds with
  | nil => exact fun s3 => ⟨[], by simp [uploadDocsLoop]⟩
  | cons d rest ih =>
    intro s3
    unfold uploadDocsLoop
    split
    · exact ⟨[], by simp⟩
    · split
      · exact ⟨[], by simp⟩
      · split
        · exact ⟨[], by simp⟩
        · next env henv =>
          dsimp only
          split
          · exact ⟨[], by simp⟩
          · rcases ih (s3 ++ [⟨generateS3Key manifestId ("doc-" ++ d), env⟩]) with
              ⟨objs, hobjs⟩
            split
            · next keys s3f hloop =>
              rw [hloop] at hobjs
              exact ⟨⟨generateS3Key manifestId ("doc-" ++ d), env⟩ :: objs,
                by simpa [List.append_assoc] using hobjs⟩
            · next e s3f hloop =>
              rw [hloop] at hobjs
              exact ⟨⟨generateS3Key manifestId ("doc-" ++ d), env⟩ :: objs,
                by simpa [List.append_assoc] using hobjs⟩

theorem generateShl_s3_extends (cfg : Config) (deps : IssueDeps) (key : Bytes)
    (manifestId : String) (docIds : List String) (ed : Int) (nowMs : Nat)
    (s3 : List S3Object) :
    ∃ objs, (generateShl cfg deps key manifestId docIds ed nowMs s3).2 = s3 ++ objs := by
  unfold generateShl
  split
  · exact ⟨[], by simp⟩
  · split
    · exact ⟨[], by simp⟩
    · split
      · next e s3b hloop =>
        rcases uploadDocsLoop_s3_extends deps key manifestId docIds s3 with ⟨objs, hobjs⟩
        rw [hloop] at hobjs
        exact ⟨objs, by simpa using hobjs⟩
      · next docKeys s3b hloop =>
        rcases uploadDocsLoop_s3_extends deps key manifestId docIds s3 with ⟨objs, hobjs⟩
        rw [hloop] at hobjs
        split
        · exact ⟨objs, by simpa using hobjs⟩
        · next envB henvB =>
          dsimp only
          split
          · exact ⟨objs, by simpa using hobjs⟩
          · refine ⟨objs ++ [⟨generateS3Key manifestId "bundle", envB⟩], ?_⟩
            simp only at hobjs
            simp [hobjs, List.append_assoc]

/-- C7 (amended): when a collaborator fetch or store fails partway
through issuance, no registry row is inserted, no audit row is written,
and the caller receives the 500 error; the artifacts uploaded before
the failure are left in storage untouched — they are neither removed
nor recorded anywhere (the failure path performs no writes at all), so
the resulting S3 state is exactly the pre-issuance state plus the
uploads already performed. -/
theorem handleGenerateShl_failure_atomic (cfg : Config) (deps : IssueDeps)
    (st : SysState) (s3 : List S3Object) (session : SessionCtx)
    (body : GenerateShlBody) (key : Bytes) (manifestId : String) (nowMs : Nat)
    (e1 e2 e3 err : String) (s3b : List S3Object)
    (hdocs : body.documentIds.isEmpty = false)
    (hcontact : (strTruthy body.phone || strTruthy body.email) = true)
    (hfail : generateShl cfg deps key manifestId body.documentIds
        (validExpiration body.expirationDays cfg) nowMs s3 = (Except.error err, s3b)) :
    handleGenerateShl cfg deps st s3 session body key manifestId nowMs e1 e2 e3 =
      { httpStatus := 500, errorMsg := some "Failed to generate health link",
        shls := st.shls, audit := st.audit, s3 := s3b, response := none } ∧
    ∃ objs, s3b = s3 ++ objs := by
  constructor
  · unfold handleGenerateShl
    rw [hdocs]
    have hb : (!strTruthy body.phone && !strTruthy body.email) = false := by
      rw [← Bool.not_or, hcontact]
      rfl
    rw [hb]
    simp only [Bool.false_eq_true, if_false]
    rw [hfail]
  · rcases generateShl_s3_extends cfg deps key manifestId body.documentIds
        (validExpiration body.expirationDays cfg) nowMs s3 with ⟨objs, hobjs⟩
    rw [hfail] at hobjs
    exact ⟨objs, hobjs⟩

/-- Collaborators whose fetch of document d2 fails (fault injection
into the document source). -/
def failDeps : IssueDeps :=
  { sampleDeps with
    fetchDoc := fun d =>
      if d == "d2" then Except.error "fetch failed"
      else Except.ok ([1, 2], "application/pdf") }

/-- Counterexample to C7 as stated: with the fetch of the second
document failing after the first document was already encrypted and
uploaded, the issuance answers 500 and inserts no registry row and no
audit row — but the artifact uploaded for the attempt is still in
storage and no state anywhere records it: it is neither removed
(best-effort or otherwise) nor orphan-tracked, contradicting the
claimed cleanup. -/
theorem issuance_no_cleanup_counterexample :
    handleGenerateShl defaultConfig failDeps { shls := [], audit := [] } []
        sampleSession
        { documentIds := ["d1", "d2"], phone := some "5550001111", email := none,
          expirationDays := 30 }
        sampleKey "M1" 0 "E1" "E2" "E3" =
      { httpStatus := 500, errorMsg := some "Failed to generate health link",
        shls := [], audit := [],
        s3 := [{ key := "shls/M1/doc-d1.jwe",
                 content := { header := { alg := "dir", enc := "A256GCM",
                                          cty := "application/pdf", zip := none },
                              sealedKey := sampleKey, plaintext := [1, 2] } }],
        response := none } ∧
    ([{ key := "shls/M1/doc-d1.jwe",
        content := { header := { alg := "dir", enc := "A256GCM",
                                 cty := "application/pdf", zip := none },
                     sealedKey := sampleKey, plaintext := [1, 2] } }] :
      List S3Object) ≠ [] := by
  exact ⟨by decide, by decide⟩

/-- Closed witness for the amended C7: the fault-injected run discharges
the hypotheses of the failure-atomicity theorem at a concrete input. -/
theorem handleGenerateShl_failure_atomic_witness :
    ([("d1" : String), "d2"].isEmpty = false) ∧
    (strTruthy (some "5550001111") || strTruthy none) = true ∧
    generateShl defaultConfig failDeps sampleKey "M1" ["d1", "d2"]
        (validExpiration 30 defaultConfig) 0 [] =
      (Except.error "fetch failed",
       [{ key := "shls/M1/doc-d1.jwe",
          content := { header := { alg := "dir", enc := "A256GCM",
                                   cty := "application/pdf", zip := none },
                       sealedKey := sampleKey, plaintext := [1, 2] } }]) ∧
    (handleGenerateShl defaultConfig failDeps { shls := [], audit := [] } []
        sampleSession
        { documentIds := ["d1", "d2"], phone := some "5550001111", email := none,
          expirationDays := 30 }
        sampleKey "M1" 0 "E1" "E2" "E3" =
      { httpStatus := 500, errorMsg := some "Failed to generate health link",
        shls := [], audit := [],
        s3 := [{ key := "shls/M1/doc-d1.jwe",
                 content := { header := { alg := "dir", enc := "A256GCM",
                                          cty := "application/pdf", zip := none },
                              sealedKey := sampleKey, plaintext := [1, 2] } }],
        response := none } ∧
      ∃ objs,
        [({ key := "shls/M1/doc-d1.jwe",
            content := { header := { alg := "dir", enc := "A256GCM",
                                     cty := "application/pdf", zip := none },
                         sealedKey := sampleKey, plaintext := [1, 2] } } : S3Object)] =
          [] ++ objs) :=
  ⟨by decide, by decide, by decide,
   handleGenerateShl_failure_atomic defaultConfig failDeps { shls := [], audit := [] } []
     sampleSession
     { documentIds := ["d1", "d2"], phone := some "5550001111", email := none,
       expirationDays := 30 }
     sampleKey "M1" 0 "E1" "E2" "E3" "fetch failed" _ (by decide) (by decide) (by decide)⟩

/-! ## External link payload format (C9) -/

theorem generateShl_ok_key_length (cfg : Config) (deps : IssueDeps) (key : Bytes)
    (manifestId : String) (docIds : List String) (ed : Int) (nowMs : Nat)
    (s3 s3b : List S3Object) (result : GenerateShlResult)
    (h : generateShl cfg deps key manifestId docIds ed nowMs s3 = (Except.ok result, s3b)) :
    key.length = SHL_KEY_LENGTH := by
  unfold generateShl at h
  split at h
  · simp at h
  · next hk => exact not_not.mp hk

/-- C9: every successfully issued link carries a payload that is the
JSON object with exactly the fields `url` (the manifest endpoint URL of
the link id), `key` (the base64url of the 32 raw key bytes), `exp` (the
expiry instant in whole epoch seconds, the floor of the expiry
milliseconds over 1000) and `label` (a display string truncated to at
most 80 characters); the link string is `shlink:/` followed by the
base64url of that JSON, and the viewer URL places it in a URL
fragment. -/
theorem shl_payload_format (cfg : Config) (deps : IssueDeps) (key : Bytes)
    (manifestId : String) (docIds : List String) (ed : Int) (nowMs : Nat)
    (s3 s3b : List S3Object) (result : GenerateShlResult)
    (h : generateShl cfg deps key manifestId docIds ed nowMs s3 = (Except.ok result, s3b)) :
    key.length = SHL_KEY_LENGTH ∧
    ∃ payload : ShlPayload,
      payload = createShlPayload (cfg.apiUrl ++ "/shl/" ++ manifestId ++ "/manifest")
        (base64urlEncodeStr key) result.expiresAtMs result.patientName ∧
      payload.url = cfg.apiUrl ++ "/shl/" ++ manifestId ++ "/manifest" ∧
      payload.key = base64urlEncodeStr key ∧
      payload.exp = result.expiresAtMs / 1000 ∧
      payload.label = String.mk (("Documents for " ++ result.patientName).toList.take 80) ∧
      payload.label.length ≤ 80 ∧
      encodeShlPayload payload =
        String.mk (base64urlEncode (utf8Bytes (shlPayloadJson payload))) ∧
      result.shlPayload = "shlink:/" ++ encodeShlPayload payload ∧
      result.viewerUrl = cfg.viewerUrl ++ "/#shlink:/" ++ encodeShlPayload payload := by
  refine ⟨generateShl_ok_key_length cfg deps key manifestId docIds ed nowMs s3 s3b result h, ?_⟩
  rcases generateShl_ok_shape cfg deps key manifestId docIds ed nowMs s3 s3b result h with
    ⟨pn, dk, _, _, hres⟩
  subst hres
  refine ⟨createShlPayload (cfg.apiUrl ++ "/shl/" ++ manifestId ++ "/manifest")
    (base64urlEncodeStr key) (nowMs + ed.toNat * 86400000) pn,
    rfl, rfl, rfl, rfl, rfl, ?_, rfl, rfl, rfl⟩
  show (String.mk (("Documents for " ++ pn).toList.take 80)).length ≤ 80
  have : (String.mk (("Documents for " ++ pn).toList.take 80)).length =
      (("Documents for " ++ pn).toList.take 80).length := rfl
  rw [this, List.length_take]
  omega

/-- Closed witness for C9 at a concrete successful issuance. -/
theorem shl_payload_format_witness :
    ∃ (result : GenerateShlResult) (s3b : List S3Object),
      generateShl defaultConfig sampleDeps sampleKey "M1" ["d1"] 30 0 [] =
        (Except.ok result, s3b) ∧
      (sampleKey.length = SHL_KEY_LENGTH ∧
       ∃ payload : ShlPayload,
        payload = createShlPayload
            (defaultConfig.apiUrl ++ "/shl/" ++ "M1" ++ "/manifest")
            (base64urlEncodeStr sampleKey) result.expiresAtMs result.patientName ∧
        payload.url = defaultConfig.apiUrl ++ "/shl/" ++ "M1" ++ "/manifest" ∧
        payload.key = base64urlEncodeStr sampleKey ∧
        payload.exp = result.expiresAtMs / 1000 ∧
        payload.label = String.mk (("Documents for " ++ result.patientName).toList.take 80) ∧
        payload.label.length ≤ 80 ∧
        encodeShlPayload payload =
          String.mk (base64urlEncode (utf8Bytes (shlPayloadJson payload))) ∧
        result.shlPayload = "shlink:/" ++ encodeShlPayload payload ∧
        result.viewerUrl =
          defaultConfig.viewerUrl ++ "/#shlink:/" ++ encodeShlPayload payload) :=
  ⟨_, _, rfl,
   shl_payload_format defaultConfig sampleDeps sampleKey "M1" ["d1"] 30 0 [] _ _ rfl⟩

/-! ## The SHL key never reaches the registry (C5) -/

theorem uploadDocsLoop_fst_key_indep (deps : IssueDeps) (manifestId : String)
    (key1 key2 : Bytes) (h1 : key1.length = SHL_KEY_LENGTH)
    (h2 : key2.length = SHL_KEY_LENGTH) :
    ∀ (docIds : List String) (s3a s3b : List S3Object),
      (uploadDocsLoop deps key1 manifestId docIds s3a).1 =
        (uploadDocsLoop deps key2 manifestId docIds s3b).1 := by
  intro docIds
  induction docIds with
  | nil => intro s3a s3b; rfl
  | cons d rest ih =>
    intro s3a s3b
    unfold uploadDocsLoop
    cases hm : deps.fetchMeta d with
    | error e => simp [hm]
    | ok m =>
      cases hd : deps.fetchDoc d with
      | error e => simp [hm, hd]
      | ok pr =>
        obtain ⟨content, contentType⟩ := pr
        have he1 : encryptContent content key1 contentType =
            Except.ok (joseCompactEncrypt content
              { alg := "dir", enc := "A256GCM", cty := contentType, zip := none } key1) := by
          simp [encryptContent, h1]
        have he2 : encryptContent content key2 contentType =
            Except.ok (joseCompactEncrypt content
              { alg := "dir", enc := "A256GCM", cty := contentType, zip := none } key2) := by
          simp [encryptContent, h2]
        simp only [hm, hd, he1, he2]
        by_cases hu : deps.uploadFails (generateS3Key manifestId ("doc-" ++ d)) = true
        · simp [hu]
        · simp only [hu, if_false]
          have hrec := ih
            (s3a ++ [⟨generateS3Key manifestId ("doc-" ++ d),
              joseCompactEncrypt content
                { alg := "dir", enc := "A256GCM", cty := contentType, zip := none } key1⟩])
            (s3b ++ [⟨generateS3Key manifestId ("doc-" ++ d),
              joseCompactEncrypt content
                { alg := "dir", enc := "A256GCM", cty := contentType, zip := none } key2⟩])
          cases hl1 : uploadDocsLoop deps key1 manifestId rest
              (s3a ++ [⟨generateS3Key manifestId ("doc-" ++ d),
                joseCompactEncrypt content
                  { alg := "dir", enc := "A256GCM", cty := contentType, zip := none } key1⟩]) with
          | mk r1 s1 =>
            cases hl2 : uploadDocsLoop deps key2 manifestId rest
                (s3b ++ [⟨generateS3Key manifestId ("doc-" ++ d),
                  joseCompactEncrypt content
                    { alg := "dir", enc := "A256GCM", cty := contentType, zip := none } key2⟩]) with
            | mk r2 s2 =>
              rw [hl1, hl2] at hrec
              simp only at hrec
              subst hrec
              cases r1 <;> simp

theorem generateShl_key_indep (cfg : Config) (deps : IssueDeps) (manifestId : String)
    (docIds : List String) (ed : Int) (nowMs : Nat) (s3 : List S3Object)
    (key1 key2 : Bytes) (h1 : key1.length = SHL_KEY_LENGTH)
    (h2 : key2.length = SHL_KEY_LENGTH) :
    (∃ ea eb s3x s3y,
      generateShl cfg deps key1 manifestId docIds ed nowMs s3 = (Except.error ea, s3x) ∧
      generateShl cfg deps key2 manifestId docIds ed nowMs s3 = (Except.error eb, s3y)) ∨
    (∃ r1 r2 s3x s3y,
      generateShl cfg deps key1 manifestId docIds ed nowMs s3 = (Except.ok r1, s3x) ∧
      generateShl cfg deps key2 manifestId docIds ed nowMs s3 = (Except.ok r2, s3y) ∧
      r1.id = r2.id ∧ r1.bundleS3Key = r2.bundleS3Key ∧
      r1.documentS3Keys = r2.documentS3Keys ∧ r1.expiresAtMs = r2.expiresAtMs ∧
      r1.patientName = r2.patientName) := by
  have hk1 : ¬ key1.length ≠ SHL_KEY_LENGTH := by simp [h1]
  have hk2 : ¬ key2.length ≠ SHL_KEY_LENGTH := by simp [h2]
  cases hp : deps.patientName with
  | error e =>
    exact Or.inl ⟨e, e, s3, s3,
      by unfold generateShl; rw [if_neg hk1, hp],
      by unfold generateShl; rw [if_neg hk2, hp]⟩
  | ok pn =>
    have hloop := uploadDocsLoop_fst_key_indep deps manifestId key1 key2 h1 h2 docIds s3 s3
    cases hl1 : uploadDocsLoop deps key1 manifestId docIds s3 with
    | mk res1 s31 =>
      cases hl2 : uploadDocsLoop deps key2 manifestId docIds s3 with
      | mk res2 s32 =>
        rw [hl1, hl2] at hloop
        simp only at hloop
        subst hloop
        cases res1 with
        | error e =>
          exact Or.inl ⟨e, e, s31, s32,
            by unfold generateShl; rw [if_neg hk1, hp, hl1],
            by unfold generateShl; rw [if_neg hk2, hp, hl2]⟩
        | ok docKeys =>
          have he1 : encryptContent (utf8Bytes deps.bundleJson) key1 "application/fhir+json" =
              Except.ok (joseCompactEncrypt (utf8Bytes deps.bundleJson)
                { alg := "dir", enc := "A256GCM", cty := "application/fhir+json",
                  zip := none } key1) := by
            simp [encryptContent, h1]
          have he2 : encryptContent (utf8Bytes deps.bundleJson) key2 "application/fhir+json" =
              Except.ok (joseCompactEncrypt (utf8Bytes deps.bundleJson)
                { alg := "dir", enc := "A256GCM", cty := "application/fhir+json",
                  zip := none } key2) := by
            simp [encryptContent, h2]
          by_cases hu : deps.uploadFails (generateS3Key manifestId "bundle") = true
          · refine Or.inl ⟨"upload failed", "upload failed", s31, s32, ?_, ?_⟩
            · unfold generateShl
              rw [if_neg hk1, hp, hl1, he1]
              dsimp only
              rw [if_pos hu]
            · unfold generateShl
              rw [if_neg hk2, hp, hl2, he2]
              dsimp only
              rw [if_pos hu]
          · have g1 : generateShl cfg deps key1 manifestId docIds ed nowMs s3 =
                (Except.ok
                  { id := manifestId,
                    viewerUrl := createViewerUrl cfg (encodeShlPayload
                      (createShlPayload (cfg.apiUrl ++ "/shl/" ++ manifestId ++ "/manifest")
                        (base64urlEncodeStr key1) (nowMs + ed.toNat * 86400000) pn)),
                    shlPayload := "shlink:/" ++ encodeShlPayload
                      (createShlPayload (cfg.apiUrl ++ "/shl/" ++ manifestId ++ "/manifest")
                        (base64urlEncodeStr key1) (nowMs + ed.toNat * 86400000) pn),
                    bundleS3Key := generateS3Key manifestId "bundle",
                    documentS3Keys := docKeys,
                    expiresAtMs := nowMs + ed.toNat * 86400000,
                    patientName := pn },
                 s31 ++ [⟨generateS3Key manifestId "bundle",
                   joseCompactEncrypt (utf8Bytes deps.bundleJson)
                     { alg := "dir", enc := "A256GCM", cty := "application/fhir+json",
                       zip := none } key1⟩]) := by
              unfold generateShl
              rw [if_neg hk1, hp, hl1, he1]
              dsimp only
              rw [if_neg hu]
            have g2 : generateShl cfg deps key2 manifestId docIds ed nowMs s3 =
                (Except.ok
                  { id := manifestId,
                    viewerUrl := createViewerUrl cfg (encodeShlPayload
                      (createShlPayload (cfg.apiUrl ++ "/shl/" ++ manifestId ++ "/manifest")
                        (base64urlEncodeStr key2) (nowMs + ed.toNat * 86400000) pn)),
                    shlPayload := "shlink:/" ++ encodeShlPayload
                      (createShlPayload (cfg.apiUrl ++ "/shl/" ++ manifestId ++ "/manifest")
                        (base64urlEncodeStr key2) (nowMs + ed.toNat * 86400000) pn),
                    bundleS3Key := generateS3Key manifestId "bundle",
                    documentS3Keys := docKeys,
                    expiresAtMs := nowMs + ed.toNat * 86400000,
                    patientName := pn },
                 s32 ++ [⟨generateS3Key manifestId "bundle",
                   joseCompactEncrypt (utf8Bytes deps.bundleJson)
                     { alg := "dir", enc := "A256GCM", cty := "application/fhir+json",
                       zip := none } key2⟩]) := by
              unfold generateShl
              rw [if_neg hk2, hp, hl2, he2]
              dsimp only
              rw [if_neg hu]
            exact Or.inr ⟨_, _, _, _, g1, g2, rfl, rfl, rfl, rfl, rfl⟩

/-- C5: the encryption key never reaches the registry — the `shls` and
`audit_logs` tables after an issuance are identical whatever 32-byte
key was drawn (every persisted field is independent of the key; only
the encrypted artifact bodies at rest and the payload handed back to
the caller involve it), and on success the returned `shlink:/` payload
is built from the base64url of the key, so the key appears only in the
payload returned to the issuing caller. -/
theorem shl_key_never_persisted (cfg : Config) (deps : IssueDeps) (st : SysState)
    (s3 : List S3Object) (session : SessionCtx) (body : GenerateShlBody)
    (manifestId : String) (nowMs : Nat) (e1 e2 e3 : String) (key1 key2 : Bytes)
    (h1 : key1.length = SHL_KEY_LENGTH) (h2 : key2.length = SHL_KEY_LENGTH) :
    (handleGenerateShl cfg deps st s3 session body key1 manifestId nowMs e1 e2 e3).shls =
      (handleGenerateShl cfg deps st s3 session body key2 manifestId nowMs e1 e2 e3).shls ∧
    (handleGenerateShl cfg deps st s3 session body key1 manifestId nowMs e1 e2 e3).audit =
      (handleGenerateShl cfg deps st s3 session body key2 manifestId nowMs e1 e2 e3).audit ∧
    (∀ result s3b,
      generateShl cfg deps key1 manifestId body.documentIds
          (validExpiration body.expirationDays cfg) nowMs s3 = (Except.ok result, s3b) →
      result.shlPayload = "shlink:/" ++ encodeShlPayload
        (createShlPayload (cfg.apiUrl ++ "/shl/" ++ manifestId ++ "/manifest")
          (base64urlEncodeStr key1) result.expiresAtMs result.patientName)) := by
  have hmain : (handleGenerateShl cfg deps st s3 session body key1 manifestId
        nowMs e1 e2 e3).shls =
      (handleGenerateShl cfg deps st s3 session body key2 manifestId
        nowMs e1 e2 e3).shls ∧
      (handleGenerateShl cfg deps st s3 session body key1 manifestId
        nowMs e1 e2 e3).audit =
      (handleGenerateShl cfg deps st s3 session body key2 manifestId
        nowMs e1 e2 e3).audit := by
    unfold handleGenerateShl
    by_cases hdocs : body.documentIds.isEmpty = true
    · simp [hdocs]
    · simp only [hdocs, if_false]
      by_cases hcontact : (!strTruthy body.phone && !strTruthy body.email) = true
      · simp [hcontact]
      · simp only [hcontact, if_false]
        rcases generateShl_key_indep cfg deps manifestId body.documentIds
            (validExpiration body.expirationDays cfg) nowMs s3 key1 key2 h1 h2 with
          ⟨ea, eb, s3x, s3y, hga, hgb⟩ |
          ⟨r1, r2, s3x, s3y, hga, hgb, hid, hbk, hdk, hexp, hpn⟩
        · rw [hga, hgb]
          exact ⟨rfl, rfl⟩
        · rw [hga, hgb]
          dsimp only
          constructor
          · simp [issuedRow, hid, hbk, hdk, hexp, hpn]
          · simp [hid]
  refine ⟨hmain.1, hmain.2, ?_⟩
  intro result s3b h
  rcases generateShl_ok_shape cfg deps key1 manifestId body.documentIds
      (validExpiration body.expirationDays cfg) nowMs s3 s3b result h with
    ⟨pn, dk, _, _, hres⟩
  rw [hres]

/-- Second concrete 32-byte key for the C5 witness. -/
def sampleKey2 : Bytes := List.replicate 32 9

/-- Closed witness for C5 at two concrete keys. -/
theorem shl_key_never_persisted_witness :
    sampleKey.length = SHL_KEY_LENGTH ∧ sampleKey2.length = SHL_KEY_LENGTH ∧
    ((handleGenerateShl defaultConfig sampleDeps { shls := [], audit := [] } []
        sampleSession
        { documentIds := ["d1"], phone := some "5550001111", email := none,
          expirationDays := 30 }
        sampleKey "M1" 0 "E1" "E2" "E3").shls =
      (handleGenerateShl defaultConfig sampleDeps { shls := [], audit := [] } []
        sampleSession
        { documentIds := ["d1"], phone := some "5550001111", email := none,
          expirationDays := 30 }
        sampleKey2 "M1" 0 "E1" "E2" "E3").shls ∧
      (handleGenerateShl defaultConfig sampleDeps { shls := [], audit := [] } []
        sampleSession
        { documentIds := ["d1"], phone := some "5550001111", email := none,
          expirationDays := 30 }
        sampleKey "M1" 0 "E1" "E2" "E3").audit =
      (handleGenerateShl defaultConfig sampleDeps { shls := [], audit := [] } []
        sampleSession
        { documentIds := ["d1"], phone := some "5550001111", email := none,
          expirationDays := 30 }
        sampleKey2 "M1" 0 "E1" "E2" "E3").audit ∧
      (∀ result s3b,
        generateShl defaultConfig sampleDeps sampleKey "M1" ["d1"]
            (validExpiration 30 defaultConfig) 0 [] = (Except.ok result, s3b) →
        result.shlPayload = "shlink:/" ++ encodeShlPayload
          (createShlPayload (defaultConfig.apiUrl ++ "/shl/" ++ "M1" ++ "/manifest")
            (base64urlEncodeStr sampleKey) result.expiresAtMs result.patientName))) :=
  ⟨by decide, by decide,
   shl_key_never_persisted defaultConfig sampleDeps { shls := [], audit := [] } []
     sampleSession
     { documentIds := ["d1"], phone := some "5550001111", email := none,
       expirationDays := 30 }
     "M1" 0 "E1" "E2" "E3" sampleKey sampleKey2 (by decide) (by decide)⟩

end SHL
